import Mathlib

set_option autoImplicit false

/-!
Shallow embedding of `src/main.py` of the kubernetes-ec2-autoscaler repository.

The file models, faithfully to the Python source:
* `MultimapParamType.convert` (comma-separated `key=value` multimap parsing),
* the `DEBUG_LOGGING_MAP` verbosity-to-level table and the clamped
  `--verbose` count,
* the AWS-credential startup check of `main` (with `sys.exit(1)`),
* the `while True` reconciliation loop with its backoff accumulator.

Python `str` values are modelled as `List Char`; Python `int` as `Int`;
Python dicts that the code builds are modelled as association lists in
insertion order; `set` values as duplicate-free lists in insertion order.
-/

/-- A Python string, modelled as its list of characters. -/
abbrev Str := List Char

/-- Truthiness of a Python value of type `Optional[str]`: `None` and the
empty string are falsy, every other string is truthy. -/
def pyTruthy : Option Str → Bool
  | none => false
  | some s => decide (s ≠ [])

/-- Python `s.split(sep)` for a one-character separator `sep`:
`''.split(sep) == ['']`, and every occurrence of `sep` starts a new field. -/
def pySplit (sep : Char) : Str → List Str
  | [] => [[]]
  | c :: cs =>
    let r := pySplit sep cs
    if c = sep then [] :: r
    else (c :: r.headD []) :: r.tail

/-- The multimap built by `MultimapParamType.convert`: a Python dict from
string keys to sets of strings, in insertion order. -/
abbrev Multimap := List (Str × List Str)

/-- Python `set.add`: membership-test insert, keeping insertion order. -/
def setAdd (s : List Str) (v : Str) : List Str :=
  if v ∈ s then s else s ++ [v]

/-- Python dict lookup `result[k]` (first matching key; the code keeps keys
unique so at most one entry per key exists). -/
def dictLookup (m : Multimap) (k : Str) : Option (List Str) :=
  match m with
  | [] => none
  | (k', vs) :: rest => if k' = k then some vs else dictLookup rest k

/-- The dict mutation performed for one entry in `convert`:
`if entry_key not in result: result[entry_key] = set()` followed by
`result[entry_key].add(entry_value)`. -/
def dictInsert (m : Multimap) (k v : Str) : Multimap :=
  match m with
  | [] => [(k, [v])]
  | (k', vs) :: rest =>
    if k' = k then (k', setAdd vs v) :: rest
    else (k', vs) :: dictInsert rest k v

/-- `entry_key, entry_value = entry.split('=')`: succeeds exactly when the
split has two fields, i.e. the entry holds exactly one `=`; otherwise the
unpacking raises `ValueError`. -/
def parseEntry (entry : Str) : Option (Str × Str) :=
  match pySplit '=' entry with
  | [k, v] => some (k, v)
  | _ => none

/-- The `for entry in entry_list` loop of `convert`, threading the dict
accumulator; `none` models the `self.fail` call aborting the conversion at
the first malformed entry. -/
def convertGo : List Str → Multimap → Option Multimap
  | [], acc => some acc
  | e :: rest, acc =>
    match parseEntry e with
    | some (k, v) => convertGo rest (dictInsert acc k v)
    | none => none

/-- `MultimapParamType.convert` (src/main.py lines 27-42): empty input gives
the empty dict; otherwise the input is split on commas and each entry must be
a `key=value` pair, values of repeated keys accumulating in a set. -/
def MultimapParamType.convert (value : Str) : Option Multimap :=
  if value = [] then some []
  else convertGo (pySplit ',' value) []

/-- `MULTIMAP_PARAM = MultimapParamType()` (src/main.py line 44): the single
instance whose `convert` parses both multimap options. -/
def MULTIMAP_PARAM : Str → Option Multimap := MultimapParamType.convert

/-- The conversion click applies to `--drainable-labels`
(`type=MULTIMAP_PARAM`, src/main.py line 77). -/
def drainable_labels_convert : Str → Option Multimap := MULTIMAP_PARAM

/-- The conversion click applies to `--instance-type-priorities`
(`type=MULTIMAP_PARAM`, src/main.py line 82). -/
def instance_type_priorities_convert : Str → Option Multimap := MULTIMAP_PARAM

/-- The click default for `--drainable-labels` (src/main.py line 77). -/
def drainable_labels_default : Str := []

/-- The click default for `--instance-type-priorities`
(src/main.py line 82). -/
def instance_type_priorities_default : Str := []

/-- `logging.CRITICAL` of the Python standard library. -/
def logging.CRITICAL : Int := 50

/-- `logging.WARNING` of the Python standard library. -/
def logging.WARNING : Int := 30

/-- `logging.INFO` of the Python standard library. -/
def logging.INFO : Int := 20

/-- `logging.DEBUG` of the Python standard library. -/
def logging.DEBUG : Int := 10

/-- `DEBUG_LOGGING_MAP` (src/main.py lines 12-17): the dict from verbosity
count to logging level; `none` models a missing key. -/
def DEBUG_LOGGING_MAP (v : Int) : Option Int :=
  if v = 0 then some logging.CRITICAL
  else if v = 1 then some logging.WARNING
  else if v = 2 then some logging.INFO
  else if v = 3 then some logging.DEBUG
  else none

/-- `click.IntRange(lo, hi, clamp=True)`: a value outside the range is
clamped to the nearest bound. -/
def IntRange.clamp (lo hi x : Int) : Int := max lo (min x hi)

/-- The value click passes to `main` for `--verbose`: the occurrence count
(a natural number) clamped into `IntRange(0, 3, clamp=True)`
(src/main.py lines 72-76). -/
def verboseOption (count : Nat) : Int := IntRange.clamp 0 3 (count : Int)

/-- `DEBUG_LOGGING_MAP.get(verbose, logging.CRITICAL)` as passed to
`logger.setLevel` (src/main.py line 95). -/
def mainLogLevel (count : Nat) : Int :=
  (DEBUG_LOGGING_MAP (verboseOption count)).getD logging.CRITICAL

/-- The keyword arguments of the `Cluster(...)` construction
(src/main.py lines 102-120). -/
structure Cluster where
  aws_access_key : Str
  aws_secret_key : Str
  regions : List Str
  kubeconfig : Option Str
  pod_namespace : Option Str
  idle_threshold : Int
  instance_init_time : Int
  type_idle_threshold : Int
  cluster_name : Option Str
  scale_up : Bool
  maintainance : Bool
  over_provision : Int
  datadog_api_key : Option Str
  dry_run : Bool
  drainable_labels : Multimap
  scale_label : Option Str
  instance_type_priorities : Multimap
deriving Repr, DecidableEq

/-- How the startup section of `main` ends: either `sys.exit(code)` after
the logged credential error (before any `Cluster` is constructed), or the
`while True` loop is entered with the constructed `Cluster`. -/
inductive StartupResult
  | exited (code : Int)
  | enteredLoop (c : Cluster)
deriving Repr, DecidableEq

/-- The startup section of `main` (src/main.py lines 86-122): after logging
setup, `sys.exit(1)` when `not (aws_secret_key and aws_access_key)`;
otherwise the `Cluster` is constructed and the loop entered. Parameters
follow the `main` signature; the multimap options arrive already parsed. -/
def mainStartup (cluster_name : Option Str) (regions : Str) (sleep : Int)
    (kubeconfig pod_namespace : Option Str)
    (aws_access_key aws_secret_key datadog_api_key : Option Str)
    (idle_threshold type_idle_threshold over_provision instance_init_time : Int)
    (no_scale no_maintenance : Bool) (dry_run : Bool)
    (drainable_labels : Multimap) (scale_label : Option Str)
    (instance_type_priorities : Multimap) : StartupResult :=
  if !(pyTruthy aws_secret_key && pyTruthy aws_access_key) then
    StartupResult.exited 1
  else
    StartupResult.enteredLoop
      { aws_access_key := aws_access_key.getD []
        aws_secret_key := aws_secret_key.getD []
        regions := pySplit ',' regions
        kubeconfig := kubeconfig
        pod_namespace := pod_namespace
        idle_threshold := idle_threshold
        instance_init_time := instance_init_time
        type_idle_threshold := type_idle_threshold
        cluster_name := cluster_name
        scale_up := !no_scale
        maintainance := !no_maintenance
        over_provision := over_provision
        datadog_api_key := datadog_api_key
        dry_run := dry_run
        drainable_labels := drainable_labels
        scale_label := scale_label
        instance_type_priorities := instance_type_priorities }

/-- One pass of the `while True` body (src/main.py lines 122-130), as the
pair (duration of the `time.sleep` performed, value of `backoff` after the
pass): on `scaled`, sleep the base interval and reset `backoff` to it; else
double `backoff` first and then sleep the doubled value. -/
def loopIter (sleep backoff : Int) (scaled : Bool) : Int × Int :=
  if scaled then (sleep, sleep)
  else (backoff * 2, backoff * 2)

/-- The value of `backoff` entering iteration `n` of the loop, for the
sequence `res` of results of `cluster.scale_loop()`; `backoff = sleep`
before the first iteration (src/main.py line 121). -/
def backoffBefore (sleep : Int) (res : Nat → Bool) : Nat → Int
  | 0 => sleep
  | n + 1 => (loopIter sleep (backoffBefore sleep res n) (res n)).2

/-- The duration of the `time.sleep` performed in iteration `n`. -/
def sleepAt (sleep : Int) (res : Nat → Bool) (n : Nat) : Int :=
  (loopIter sleep (backoffBefore sleep res n) (res n)).1

/-- The possible control outcomes of one pass of a Python `while` body:
fall through to the next iteration (with the state it produces), or leave
the loop (`break` / `return` / `sys.exit`). -/
inductive BodyOutcome
  | continues (sleepDur : Int) (newBackoff : Int)
  | exits (code : Int)
deriving Repr, DecidableEq

/-- The control outcome of the `while True` body (src/main.py lines 122-130):
both branches fall through; the body contains no `break`, `return` or
`sys.exit`. -/
def loopBody (sleep backoff : Int) (scaled : Bool) : BodyOutcome :=
  if scaled then BodyOutcome.continues sleep sleep
  else BodyOutcome.continues (backoff * 2) (backoff * 2)

/-- Map-membership through `dictLookup`: key `k` is present and its value
set holds `v`. -/
def lookupMem (m : Multimap) (k v : Str) : Prop :=
  ∃ vs, dictLookup m k = some vs ∧ v ∈ vs


/-! ## Helper lemmas about the main loop -/

theorem backoffBefore_start (sleep : Int) (res : Nat → Bool)
    (i : Nat) (hstart : i = 0 ∨ res (i - 1) = true) :
    backoffBefore sleep res i = sleep := by
  rcases hstart with h0 | htrue
  · subst h0; rfl
  · rcases Nat.eq_zero_or_pos i with hi | hi
    · subst hi; rfl
    · obtain ⟨k, rfl⟩ : ∃ k, i = k + 1 := ⟨i - 1, by omega⟩
      have hk : res k = true := by simpa using htrue
      simp [backoffBefore, loopIter, hk]

theorem backoffBefore_consecutive_false (sleep : Int) (res : Nat → Bool)
    (i N : Nat)
    (hres : ∀ j, i ≤ j → j < i + N → res j = false)
    (hstart : i = 0 ∨ res (i - 1) = true) :
    ∀ m, m ≤ N → backoffBefore sleep res (i + m) = sleep * 2 ^ m := by
  intro m
  induction m with
  | zero =>
    intro _
    simpa using backoffBefore_start sleep res i hstart
  | succ m ih =>
    intro hm
    have hb := ih (by omega)
    have hf : res (i + m) = false := hres (i + m) (by omega) (by omega)
    have hidx : i + (m + 1) = (i + m) + 1 := by omega
    rw [hidx]
    simp [backoffBefore, loopIter, hf, hb]
    ring

/-! ## Claim theorems about the main loop -/

/-- Claim C1, counterexample: with base interval 60 and `scale_loop` always
returning false, the first call (N = 1 consecutive false calls) is followed
by a sleep of 120 = 60 * 2, not 60 * 2^(1-1) = 60 as the claim states: the
code doubles `backoff` before sleeping. -/
theorem main_backoff_claim_counterexample :
    sleepAt 60 (fun _ => false) 0 ≠ 60 * 2 ^ (1 - 1) := by decide

/-- Claim C1 (amended): if `cluster.scale_loop()` returns false on N
consecutive calls starting at call `i` (the run's first call, or one
immediately preceded by a call returning true), the sleep performed after
the Nth such call equals `sleep * 2 ^ N`: the idle backoff sleeps start at
twice the base interval and double thereafter. -/
theorem main_backoff_doubles (sleep : Int) (res : Nat → Bool) (i N : Nat)
    (hN : 1 ≤ N)
    (hres : ∀ j, i ≤ j → j < i + N → res j = false)
    (hstart : i = 0 ∨ res (i - 1) = true) :
    sleepAt sleep res (i + N - 1) = sleep * 2 ^ N := by
  have hb := backoffBefore_consecutive_false sleep res i N hres hstart
    (N - 1) (by omega)
  have hf : res (i + (N - 1)) = false := hres _ (by omega) (by omega)
  have hidx : i + N - 1 = i + (N - 1) := by omega
  rw [hidx]
  simp [sleepAt, loopIter, hf, hb]
  have hpow : (2 : Int) ^ N = 2 ^ (N - 1) * 2 := by
    rw [← pow_succ]
    congr 1
    omega
  rw [hpow]
  ring

/-- Witness for C1 (amended) at sleep = 60, `scale_loop` always false,
i = 0, N = 2: the sleep after the second consecutive false call is
60 * 2^2 = 240. -/
theorem main_backoff_doubles_witness :
    sleepAt 60 (fun _ => false) (0 + 2 - 1) = 60 * 2 ^ 2 :=
  main_backoff_doubles 60 (fun _ => false) 0 2 (by omega)
    (fun _ _ _ => rfl) (Or.inl rfl)

/-- Claim C2: immediately after any `cluster.scale_loop()` call returning
true, the loop sleeps exactly the base interval and the backoff accumulator
is reset to the base interval, whatever preceded that call. -/
theorem main_true_resets_backoff (sleep : Int) (res : Nat → Bool) (n : Nat)
    (h : res n = true) :
    sleepAt sleep res n = sleep ∧ backoffBefore sleep res (n + 1) = sleep := by
  constructor <;> simp [sleepAt, backoffBefore, loopIter, h]

/-- Witness for C2 at sleep = 60, `scale_loop` always true, call 3. -/
theorem main_true_resets_backoff_witness :
    sleepAt 60 (fun _ => true) 3 = 60 ∧ backoffBefore 60 (fun _ => true) (3 + 1) = 60 :=
  main_true_resets_backoff 60 (fun _ => true) 3 rfl

/-- Claim C10: once the loop is entered, every iteration's body falls
through to the next iteration (producing that iteration's sleep and the
next backoff value); no iteration ever takes an exit out of the
`while True` loop, for any sequence of `scale_loop` results. -/
theorem main_loop_never_exits (sleep : Int) (res : Nat → Bool) (n : Nat) :
    loopBody sleep (backoffBefore sleep res n) (res n) =
      BodyOutcome.continues (sleepAt sleep res n) (backoffBefore sleep res (n + 1))
    ∧ ∀ code, loopBody sleep (backoffBefore sleep res n) (res n) ≠
      BodyOutcome.exits code := by
  cases h : res n <;>
    simp [loopBody, sleepAt, backoffBefore, loopIter, h]

/-- Witness for C10 at sleep = 60, `scale_loop` always false, iteration 0:
the body falls through and is not an exit with code 0. -/
theorem main_loop_never_exits_witness :
    loopBody 60 (backoffBefore 60 (fun _ => false) 0) false ≠
      BodyOutcome.exits 0 :=
  (main_loop_never_exits 60 (fun _ => false) 0).2 0

/-- Claim C3: if the AWS access key or the AWS secret key is absent (None
or the empty string, i.e. falsy), `main` exits with status 1 (non-zero)
before any `Cluster` is constructed or the loop entered; when both are
present (truthy), the startup check does not exit and the loop is entered
with a constructed `Cluster`. -/
theorem main_credential_check (cluster_name : Option Str) (regions : Str)
    (sleep : Int) (kubeconfig pod_namespace : Option Str)
    (aws_access_key aws_secret_key datadog_api_key : Option Str)
    (idle_threshold type_idle_threshold over_provision instance_init_time : Int)
    (no_scale no_maintenance dry_run : Bool)
    (drainable_labels : Multimap) (scale_label : Option Str)
    (instance_type_priorities : Multimap) :
    (pyTruthy aws_access_key = false ∨ pyTruthy aws_secret_key = false →
      mainStartup cluster_name regions sleep kubeconfig pod_namespace
        aws_access_key aws_secret_key datadog_api_key idle_threshold
        type_idle_threshold over_provision instance_init_time no_scale
        no_maintenance dry_run drainable_labels scale_label
        instance_type_priorities = StartupResult.exited 1 ∧ (1 : Int) ≠ 0)
    ∧ (pyTruthy aws_access_key = true → pyTruthy aws_secret_key = true →
      ∃ c, mainStartup cluster_name regions sleep kubeconfig pod_namespace
        aws_access_key aws_secret_key datadog_api_key idle_threshold
        type_idle_threshold over_provision instance_init_time no_scale
        no_maintenance dry_run drainable_labels scale_label
        instance_type_priorities = StartupResult.enteredLoop c) := by
  constructor
  · intro h
    refine ⟨?_, by decide⟩
    unfold mainStartup
    rcases h with h | h <;> simp [h]
  · intro h1 h2
    exact ⟨_, by unfold mainStartup; rw [h1, h2]; rfl⟩

/-- Witness for C3: with the access key absent (None) and a secret key
present, startup exits with status 1. -/
theorem main_credential_check_witness :
    mainStartup none [] 60 none none none (some ['k']) none 3600 604800 5
      1500 false false false [] none [] = StartupResult.exited 1 ∧ (1 : Int) ≠ 0 :=
  (main_credential_check none [] 60 none none none (some ['k']) none 3600
    604800 5 1500 false false false [] none []).1 (Or.inl rfl)

/-- Claim C6: `--drainable-labels` and `--instance-type-priorities` are
converted by the same function (the single `MULTIMAP_PARAM` instance):
every input parses to equal maps under both options, and one conversion
succeeds exactly when the other does. -/
theorem multimap_options_share_conversion (s : Str) :
    drainable_labels_convert s = instance_type_priorities_convert s ∧
    ((drainable_labels_convert s).isSome ↔
      (instance_type_priorities_convert s).isSome) :=
  ⟨rfl, Iff.rfl⟩

/-- Claim C7: the verbosity count is clamped into 0..3, the configured
level is always one of CRITICAL, WARNING, INFO, DEBUG, and the level is a
monotone function of the clamped count: a larger clamped count gives a
numerically smaller (more verbose) level. -/
theorem main_log_level_monotone :
    (∀ c : Nat, 0 ≤ verboseOption c ∧ verboseOption c ≤ 3 ∧
      mainLogLevel c ∈
        [logging.CRITICAL, logging.WARNING, logging.INFO, logging.DEBUG])
    ∧ ∀ c1 c2 : Nat, verboseOption c1 ≤ verboseOption c2 →
      mainLogLevel c2 ≤ mainLogLevel c1 := by
  have hval : ∀ c : Nat, verboseOption c = 0 ∨ verboseOption c = 1 ∨
      verboseOption c = 2 ∨ verboseOption c = 3 := by
    intro c
    unfold verboseOption IntRange.clamp
    omega
  constructor
  · intro c
    rcases hval c with h | h | h | h <;>
      refine ⟨by omega, by omega, ?_⟩ <;>
      simp [mainLogLevel, h, DEBUG_LOGGING_MAP]
  · intro c1 c2 hle
    rcases hval c1 with h1 | h1 | h1 | h1 <;>
      rcases hval c2 with h2 | h2 | h2 | h2 <;>
      rw [h1, h2] at hle <;>
      simp only [mainLogLevel, h1, h2] <;>
      first
        | decide
        | omega

/-- Witness for C7 monotonicity at counts 1 and 2: WARNING for one `-v`,
INFO for two, with INFO ≤ WARNING. -/
theorem main_log_level_monotone_witness :
    mainLogLevel 2 ≤ mainLogLevel 1 :=
  main_log_level_monotone.2 1 2 (by decide)

/-- Claim C8: the empty string, the configured default of both multimap
options, converts to the empty map without failing. -/
theorem convert_empty_default :
    MultimapParamType.convert drainable_labels_default = some [] ∧
    MultimapParamType.convert instance_type_priorities_default = some [] := by
  constructor <;> rfl

/-! ## Helper lemmas about splitting -/

theorem pySplit_ne_nil (sep : Char) (s : Str) : pySplit sep s ≠ [] := by
  cases s with
  | nil => simp [pySplit]
  | cons c cs =>
    simp only [pySplit]
    split <;> simp

theorem pySplit_length (sep : Char) (s : Str) :
    (pySplit sep s).length = s.count sep + 1 := by
  induction s with
  | nil => simp [pySplit]
  | cons c cs ih =>
    by_cases h : c = sep
    · subst h
      simp [pySplit, List.count_cons, ih]
    · have hne := pySplit_ne_nil sep cs
      obtain ⟨hd, tl, heq⟩ := List.exists_cons_of_ne_nil hne
      have hcount : (c :: cs).count sep = cs.count sep := by
        simp [List.count_cons, h]
      rw [hcount, ← ih, heq]
      simp [pySplit, h, heq]

theorem parseEntry_isSome_iff (e : Str) :
    (parseEntry e).isSome ↔ e.count '=' = 1 := by
  have hlen : (parseEntry e).isSome ↔ (pySplit '=' e).length = 2 := by
    unfold parseEntry
    split
    · rename_i k v heq
      simp [heq]
    · rename_i hne
      simp only [Option.isSome_none, Bool.false_eq_true, false_iff]
      intro hlen
      obtain ⟨a, b, hab⟩ := List.length_eq_two.mp hlen
      exact hne a b hab
  rw [hlen, pySplit_length]
  omega

theorem parseEntry_eq_none_iff (e : Str) :
    parseEntry e = none ↔ e.count '=' ≠ 1 := by
  constructor
  · intro hn hc
    have hs := (parseEntry_isSome_iff e).mpr hc
    rw [hn] at hs
    simp at hs
  · intro hc
    cases hp : parseEntry e with
    | none => rfl
    | some kv =>
      exact absurd ((parseEntry_isSome_iff e).mp (by simp [hp])) hc

theorem convertGo_none (es : List Str) :
    ∀ acc : Multimap, (∃ e ∈ es, parseEntry e = none) →
      convertGo es acc = none := by
  induction es with
  | nil => intro acc h; simp at h
  | cons e rest ih =>
    intro acc h
    cases hp : parseEntry e with
    | none => simp [convertGo, hp]
    | some kv =>
      obtain ⟨k, v⟩ := kv
      rcases h with ⟨e', he', hnone⟩
      rcases List.mem_cons.mp he' with rfl | hmem
      · rw [hp] at hnone; cases hnone
      · simp only [convertGo, hp]
        exact ih _ ⟨e', hmem, hnone⟩

theorem pySplit_no_sep (sep : Char) (s : Str) (h : sep ∉ s) :
    pySplit sep s = [s] := by
  induction s with
  | nil => rfl
  | cons c cs ih =>
    rw [List.mem_cons] at h
    push_neg at h
    have hc : c ≠ sep := fun hc => h.1 hc.symm
    simp [pySplit, hc, ih h.2]

theorem pySplit_append_sep (sep : Char) (k v : Str)
    (hk : sep ∉ k) (hv : sep ∉ v) :
    pySplit sep (k ++ sep :: v) = [k, v] := by
  induction k with
  | nil => simp [pySplit, pySplit_no_sep sep v hv]
  | cons c cs ih =>
    rw [List.mem_cons] at hk
    push_neg at hk
    have hc : c ≠ sep := fun hc => hk.1 hc.symm
    have hrec := ih hk.2
    simp [pySplit, hc, hrec]

theorem parseEntry_trailing_eq (k : Str) (hk : '=' ∉ k) :
    parseEntry (k ++ ['=']) = some (k, []) := by
  unfold parseEntry
  have hsplit : pySplit '=' (k ++ '=' :: []) = [k, []] :=
    pySplit_append_sep '=' k [] hk (by simp)
  rw [show k ++ ['='] = k ++ '=' :: [] from rfl, hsplit]

theorem parseEntry_leading_eq (v : Str) (hv : '=' ∉ v) :
    parseEntry ('=' :: v) = some ([], v) := by
  unfold parseEntry
  have hsplit : pySplit '=' ([] ++ '=' :: v) = [[], v] :=
    pySplit_append_sep '=' [] v (by simp) hv
  rw [show ('=' :: v : Str) = [] ++ '=' :: v from rfl, hsplit]

/-! ## Claim theorems about malformed and degenerate entries -/

/-- Claim C5: a non-empty input holding at least one comma-separated entry
without exactly one `=` makes `MultimapParamType.convert` fail (the
`self.fail` path), rather than return a map. -/
theorem convert_rejects_malformed (value : Str) (hne : value ≠ [])
    (h : ∃ e ∈ pySplit ',' value, e.count '=' ≠ 1) :
    MultimapParamType.convert value = none := by
  unfold MultimapParamType.convert
  rw [if_neg hne]
  obtain ⟨e, he, hc⟩ := h
  exact convertGo_none _ _ ⟨e, he, (parseEntry_eq_none_iff e).mpr hc⟩

/-- Witness for C5 at input "a=1,b": the entry "b" has no `=`, so the
conversion fails. -/
theorem convert_rejects_malformed_witness :
    MultimapParamType.convert ['a', '=', '1', ',', 'b'] = none :=
  convert_rejects_malformed ['a', '=', '1', ',', 'b'] (by decide) (by decide)

/-- Claim C9: entries with an empty value or an empty key are accepted: for
`=`-free and comma-free `k` and `v`, input "k=" maps `k` to the set holding
the empty string, and input "=v" maps the empty-string key to the set
holding `v`. -/
theorem convert_accepts_empty_key_or_value (k v : Str)
    (hk_eq : '=' ∉ k) (hk_comma : ',' ∉ k)
    (hv_eq : '=' ∉ v) (hv_comma : ',' ∉ v) :
    MultimapParamType.convert (k ++ ['=']) = some [(k, [[]])] ∧
    MultimapParamType.convert ('=' :: v) = some [([], [v])] := by
  constructor
  · have hentry : ',' ∉ k ++ ['='] := by
      intro hm
      rcases List.mem_append.mp hm with h | h
      · exact hk_comma h
      · exact absurd (List.mem_singleton.mp h) (by decide)
    unfold MultimapParamType.convert
    rw [if_neg (by simp), pySplit_no_sep ',' _ hentry]
    simp [convertGo, parseEntry_trailing_eq k hk_eq, dictInsert]
  · have hentry : ',' ∉ ('=' :: v : Str) := by
      intro hm
      rcases List.mem_cons.mp hm with h | h
      · exact absurd h (by decide)
      · exact hv_comma h
    unfold MultimapParamType.convert
    rw [if_neg (by simp), pySplit_no_sep ',' _ hentry]
    simp [convertGo, parseEntry_leading_eq v hv_eq, dictInsert]

/-- Witness for C9 at k = "a", v = "b": "a=" maps "a" to the set with the
empty string, "=b" maps "" to the set with "b". -/
theorem convert_accepts_empty_key_or_value_witness :
    MultimapParamType.convert ['a', '='] = some [(['a'], [[]])] ∧
    MultimapParamType.convert ['=', 'b'] = some [([], [['b']])] :=
  convert_accepts_empty_key_or_value ['a'] ['b']
    (by decide) (by decide) (by decide) (by decide)

/-! ## Helper lemmas about the dict accumulator -/

theorem setAdd_mem (s : List Str) (v v0 : Str) :
    v0 ∈ setAdd s v ↔ v0 ∈ s ∨ v0 = v := by
  unfold setAdd
  split
  · rename_i hin
    constructor
    · exact Or.inl
    · rintro (h | rfl)
      · exact h
      · exact hin
  · simp

theorem dictLookup_dictInsert_self (m : Multimap) (k v : Str) :
    dictLookup (dictInsert m k v) k =
      some (setAdd ((dictLookup m k).getD []) v) := by
  induction m with
  | nil => simp [dictInsert, dictLookup, setAdd]
  | cons p rest ih =>
    obtain ⟨k', vs⟩ := p
    by_cases h : k' = k
    · subst h
      simp [dictInsert, dictLookup]
    · simp [dictInsert, dictLookup, h, ih]

theorem dictLookup_dictInsert_ne (m : Multimap) (k v k0 : Str) (h : k0 ≠ k) :
    dictLookup (dictInsert m k v) k0 = dictLookup m k0 := by
  induction m with
  | nil =>
    simp [dictInsert, dictLookup, Ne.symm h]
  | cons p rest ih =>
    obtain ⟨k', vs⟩ := p
    by_cases hk : k' = k
    · subst hk
      simp [dictInsert, dictLookup, Ne.symm h]
    · by_cases hk0 : k' = k0
      · subst hk0
        simp [dictInsert, dictLookup, hk]
      · simp [dictInsert, dictLookup, hk, hk0, ih]

theorem keys_dictInsert (m : Multimap) (k v k0 : Str) :
    k0 ∈ (dictInsert m k v).map Prod.fst ↔
      k0 ∈ m.map Prod.fst ∨ k0 = k := by
  induction m with
  | nil => simp [dictInsert]
  | cons p rest ih =>
    obtain ⟨k', vs⟩ := p
    by_cases hk : k' = k
    · subst hk
      simp [dictInsert]
      tauto
    · simp [dictInsert, hk, ih]
      tauto

theorem nodup_keys_dictInsert (m : Multimap) (k v : Str)
    (h : (m.map Prod.fst).Nodup) :
    ((dictInsert m k v).map Prod.fst).Nodup := by
  induction m with
  | nil => simp [dictInsert]
  | cons p rest ih =>
    obtain ⟨k', vs⟩ := p
    rw [List.map_cons, List.nodup_cons] at h
    by_cases hk : k' = k
    · subst hk
      simpa [dictInsert] using h
    · rw [show dictInsert ((k', vs) :: rest) k v =
          (k', vs) :: dictInsert rest k v by simp [dictInsert, hk]]
      rw [List.map_cons, List.nodup_cons]
      refine ⟨?_, ih h.2⟩
      rw [keys_dictInsert]
      push_neg
      exact ⟨h.1, hk⟩

theorem dictLookup_isSome_iff (m : Multimap) (k : Str) :
    (dictLookup m k).isSome ↔ k ∈ m.map Prod.fst := by
  induction m with
  | nil => simp [dictLookup]
  | cons p rest ih =>
    obtain ⟨k', vs⟩ := p
    by_cases h : k' = k
    · subst h
      simp [dictLookup]
    · simp [dictLookup, h, ih]
      tauto

theorem lookupMem_dictInsert (m : Multimap) (k v k0 v0 : Str) :
    lookupMem (dictInsert m k v) k0 v0 ↔
      lookupMem m k0 v0 ∨ (k0 = k ∧ v0 = v) := by
  by_cases hk : k0 = k
  · subst hk
    unfold lookupMem
    rw [dictLookup_dictInsert_self]
    cases hl : dictLookup m k0 with
    | none => simp [setAdd_mem]
    | some vs => simp [setAdd_mem]
  · unfold lookupMem
    rw [dictLookup_dictInsert_ne _ _ _ _ hk]
    simp [hk]

/-- The invariant of the `for entry in entry_list` loop: from a
duplicate-free accumulator, `convertGo` succeeds on well-formed entries and
its result's entries are exactly the accumulator's plus the parsed pairs. -/
theorem convertGo_spec (es : List Str) :
    ∀ acc : Multimap, (∀ e ∈ es, (parseEntry e).isSome) →
      (acc.map Prod.fst).Nodup →
      ∃ m, convertGo es acc = some m ∧
        (m.map Prod.fst).Nodup ∧
        (∀ k v, lookupMem m k v ↔
          lookupMem acc k v ∨ (k, v) ∈ es.filterMap parseEntry) ∧
        (∀ k, (dictLookup m k).isSome ↔ (dictLookup acc k).isSome ∨
          k ∈ (es.filterMap parseEntry).map Prod.fst) := by
  induction es with
  | nil =>
    intro acc _ hnd
    exact ⟨acc, rfl, hnd, by simp, by simp⟩
  | cons e rest ih =>
    intro acc hwf hnd
    have he : (parseEntry e).isSome := hwf e (by simp)
    obtain ⟨⟨k, v⟩, hkv⟩ := Option.isSome_iff_exists.mp he
    obtain ⟨m, hm, hmnd, hmem, hkey⟩ :=
      ih (dictInsert acc k v) (fun e' h' => hwf e' (by simp [h']))
        (nodup_keys_dictInsert _ _ _ hnd)
    have hfc : (e :: rest).filterMap parseEntry =
        (k, v) :: rest.filterMap parseEntry := by
      simp [List.filterMap_cons, hkv]
    refine ⟨m, ?_, hmnd, ?_, ?_⟩
    · simpa only [convertGo, hkv] using hm
    · intro k0 v0
      rw [hmem k0 v0, lookupMem_dictInsert, hfc]
      simp only [List.mem_cons, Prod.mk.injEq]
      tauto
    · intro k0
      rw [hkey k0, hfc]
      by_cases hk : k0 = k
      · subst hk
        simp [Option.isSome_iff_exists, dictLookup_dictInsert_self]
      · rw [dictLookup_dictInsert_ne _ _ _ _ hk]
        simp [hk]

/-- Claim C4: on input whose comma-separated entries each hold exactly one
`=`, `convert` succeeds with a duplicate-free map whose keys are exactly
the keys occurring in the input, each mapped to exactly the set of all
values paired with it anywhere in the input. -/
theorem convert_wellformed_multimap (value : Str)
    (hwf : ∀ e ∈ pySplit ',' value, e.count '=' = 1) :
    ∃ m, MultimapParamType.convert value = some m ∧
      (m.map Prod.fst).Nodup ∧
      (∀ k v, (∃ vs, dictLookup m k = some vs ∧ v ∈ vs) ↔
        (k, v) ∈ (pySplit ',' value).filterMap parseEntry) ∧
      (∀ k, (dictLookup m k).isSome ↔
        k ∈ ((pySplit ',' value).filterMap parseEntry).map Prod.fst) := by
  have hne : value ≠ [] := by
    intro h
    subst h
    have h0 := hwf [] (by simp [pySplit])
    simp at h0
  have hwf' : ∀ e ∈ pySplit ',' value, (parseEntry e).isSome :=
    fun e he => (parseEntry_isSome_iff e).mpr (hwf e he)
  obtain ⟨m, hm, hnd, hmem, hkey⟩ :=
    convertGo_spec (pySplit ',' value) [] hwf' (by simp)
  refine ⟨m, ?_, hnd, ?_, ?_⟩
  · unfold MultimapParamType.convert
    rw [if_neg hne]
    exact hm
  · intro k v
    have h := hmem k v
    simpa [lookupMem, dictLookup] using h
  · intro k
    have h := hkey k
    simpa [dictLookup] using h

/-- Witness for C4 at input "a=1,b=2,a=3": every key occurring in the input
is mapped to exactly its paired values, with the repeated key "a"
accumulating both of its values. -/
theorem convert_wellformed_multimap_witness :
    ∃ m, MultimapParamType.convert
        ['a', '=', '1', ',', 'b', '=', '2', ',', 'a', '=', '3'] = some m ∧
      (m.map Prod.fst).Nodup ∧
      (∀ k v, (∃ vs, dictLookup m k = some vs ∧ v ∈ vs) ↔
        (k, v) ∈ (pySplit ','
          ['a', '=', '1', ',', 'b', '=', '2', ',', 'a', '=', '3']).filterMap
          parseEntry) ∧
      (∀ k, (dictLookup m k).isSome ↔
        k ∈ ((pySplit ','
          ['a', '=', '1', ',', 'b', '=', '2', ',', 'a', '=', '3']).filterMap
          parseEntry).map Prod.fst) :=
  convert_wellformed_multimap
    ['a', '=', '1', ',', 'b', '=', '2', ',', 'a', '=', '3'] (by decide)
